import Mathlib

/- Verification of the PetAvatar job-orchestration layer: a shallow embedding
of the Python Lambda handlers (process-handler, s3-event-handler,
process-worker, status-handler, result-handler) and of the retry utility in
src/utils/error_handling.py, together with theorems settling the spec claims.

Modelling conventions:
* A DynamoDB item is a record of optional attributes (`Job`); `put_item`
  replaces the whole item, `update_item` upserts only the named attributes.
* The job table is a key-value map `JobStore := String → Option Job`.
* AWS calls (S3 head/get/put, the Bedrock agent, SQS) are oracles passed in
  as environment records; each returns `Except ExnInfo _` where `ExnInfo`
  carries the Python exception's type name and text.
* Handlers return, besides the HTTP response, the resulting store and a
  trace of job-store / queue effects, so that claims about "no store access"
  or "no message enqueued" are statable.
* Timestamps are naturals; float delays of the retry helper are rationals.
* Storage and queue operations themselves are assumed not to raise; their
  exception branches in the source only log and count, and no claim
  exercises them.
-/

namespace PetAvatar

/-- Python exception, reduced to its type name and its `str(e)` text. -/
structure ExnInfo where
  name : String
  msg : String
deriving DecidableEq, Repr

/-- Truthiness of an optional string, as Python `if not x` sees it:
`None` and `""` are falsy. -/
def optStrTruthy : Option String → Bool
  | none => false
  | some s => !s.isEmpty

/-- A DynamoDB job item: every attribute is optional, since `put_item`
replaces the whole item and `update_item` only touches the named ones.
The dict-valued attributes (identity package, pet analysis) are opaque
payload strings here. -/
structure Job where
  status : Option String
  progress : Option Nat
  error_message : Option String
  identity_package : Option String
  pet_analysis : Option String
  s3_avatar_key : Option String
  s3_upload_key : Option String
  created_at : Option Nat
  updated_at : Option Nat
  ttl : Option Nat
deriving DecidableEq, Repr

/-- The item with no attributes besides the key; base of an upsert. -/
def Job.blank : Job :=
  { status := none, progress := none, error_message := none,
    identity_package := none, pet_analysis := none, s3_avatar_key := none,
    s3_upload_key := none, created_at := none, updated_at := none, ttl := none }

/-- The job table, keyed by `job_id`. -/
abbrev JobStore : Type := String → Option Job

/-- The everywhere-empty table. -/
def JobStore.empty : JobStore := fun _ => none

/-- Write an item at a key (DynamoDB `put_item`: full replacement). -/
def JobStore.put (s : JobStore) (k : String) (v : Job) : JobStore :=
  fun k' => if k' = k then some v else s k'

/-- Read an attribute of the item stored at a key, when both exist. -/
def jobField {α : Type} (f : Job → Option α) (s : JobStore) (k : String) : Option α :=
  (s k).bind f

/-- The fresh record written by both ingestion paths (process-handler
lines 255-265, s3-event-handler lines 124-134): status `queued`,
progress `0`, a 7-day TTL. -/
def newJobItem (key : String) (now : Nat) : Job :=
  { status := some "queued", progress := some 0, error_message := none,
    identity_package := none, pet_analysis := none, s3_avatar_key := none,
    s3_upload_key := some key, created_at := some now, updated_at := some now,
    ttl := some (now + 7 * 24 * 60 * 60) }

/-- The `results` dict accepted by `update_job_status`; each field models
the presence of the corresponding dict key. -/
structure ResultsDict where
  identity_package : Option String
  pet_analysis : Option String
  s3_avatar_key : Option String
deriving DecidableEq, Repr

/-- Python truthiness of the results dict (`if results:`). -/
def ResultsDict.truthy (r : ResultsDict) : Bool :=
  r.identity_package.isSome || r.pet_analysis.isSome || r.s3_avatar_key.isSome

/-- Attribute part of `update_job_status` from process-worker/handler.py
lines 25-81 (an unconditional DynamoDB `update_item`): always SET `status`
and `updated_at`; SET `progress` when the argument is not `None`, the
error message when it is truthy, and each result attribute present in a
truthy `results` dict. No attribute is ever removed, and the source
carries no ConditionExpression. -/
def applyUpdateItem (base : Job) (now : Nat) (status : String)
    (progress : Option Nat) (error_message : Option String)
    (results : Option ResultsDict) : Job :=
  let item := { base with status := some status, updated_at := some now }
  let item :=
    match progress with
    | some p => { item with progress := some p }
    | none => item
  let item :=
    if optStrTruthy error_message then { item with error_message := error_message }
    else item
  let item :=
    match results with
    | some r =>
      if r.truthy then
        let item :=
          match r.identity_package with
          | some v => { item with identity_package := some v }
          | none => item
        let item :=
          match r.pet_analysis with
          | some v => { item with pet_analysis := some v }
          | none => item
        match r.s3_avatar_key with
        | some v => { item with s3_avatar_key := some v }
        | none => item
      else item
    | none => item
  item

/-- The unconditional upsert: write the transformed item back under the
key, starting from the stored item or from the blank one when absent. -/
def update_job_status (store : JobStore) (now : Nat) (job_id status : String)
    (progress : Option Nat) (error_message : Option String)
    (results : Option ResultsDict) : JobStore :=
  store.put job_id
    (applyUpdateItem ((store job_id).getD Job.blank) now status progress error_message results)

/-- One recorded call to `update_job_status` (status, progress, error,
results arguments), used to trace the worker's writes in order. -/
structure StatusUpdate where
  status : String
  progress : Option Nat
  error_message : Option String
  results : Option ResultsDict
deriving DecidableEq, Repr

/-- Apply one recorded update to the store. -/
def applyStatusUpdate (store : JobStore) (now : Nat) (job_id : String)
    (u : StatusUpdate) : JobStore :=
  update_job_status store now job_id u.status u.progress u.error_message u.results

/-- Outcome of `retry_with_exponential_backoff`: the final result, the
sleeps performed between attempts, and how many times the wrapped function
was called. -/
structure RetryOutcome (α : Type) where
  outcome : Except ExnInfo α
  delays : List ℚ
  calls : Nat

/-- The retry loop of src/utils/error_handling.py lines 64-109, iterating
over the remaining attempt indices (`for attempt in range(max_retries)`).
On the last attempt the exception is re-raised; otherwise the loop sleeps
`min(base_delay * exponential_base ** attempt, max_delay)` and retries.
An empty range re-raises `RuntimeError` (lines 107-109). -/
def retryList {α : Type} (f : Nat → Except ExnInfo α) (maxRetries : Nat)
    (baseDelay maxDelay expBase : ℚ) : List Nat → RetryOutcome α
  | [] => ⟨.error ⟨"RuntimeError", "Retry failed without exception"⟩, [], 0⟩
  | attempt :: rest =>
    match f attempt with
    | .ok a => ⟨.ok a, [], 1⟩
    | .error e =>
      if attempt = maxRetries - 1 then ⟨.error e, [], 1⟩
      else
        let d := min (baseDelay * expBase ^ attempt) maxDelay
        let r := retryList f maxRetries baseDelay maxDelay expBase rest
        ⟨r.outcome, d :: r.delays, r.calls + 1⟩

/-- `retry_with_exponential_backoff` from src/utils/error_handling.py
lines 26-117, with the wrapped function's per-attempt behaviour given as
an oracle from attempt index to outcome. -/
def retry_with_exponential_backoff {α : Type} (f : Nat → Except ExnInfo α)
    (maxRetries : Nat) (baseDelay maxDelay expBase : ℚ) : RetryOutcome α :=
  retryList f maxRetries baseDelay maxDelay expBase (List.range maxRetries)

/-- Structured result dict returned by the agent invocation
(process-worker/handler.py lines 176-193); dict values are opaque strings,
absent keys are `none`. -/
structure AgentResults where
  pet_analysis : Option String
  career_profile : Option String
  avatar_image_base64 : Option String
  identity_package : Option String
deriving DecidableEq, Repr

/-- Oracles for the worker's AWS calls: S3 download by key, the agent call
by attempt index, S3 upload by key. -/
structure WorkerEnv where
  download : String → Except ExnInfo String
  agentAttempts : Nat → Except ExnInfo AgentResults
  upload : String → Except ExnInfo Unit

/-- `invoke_agent` from process-worker/handler.py lines 113-205, decorated
with `retry_with_exponential_backoff(max_retries=3)` and the decorator's
default `base_delay=1.0`, `max_delay=60.0`, `exponential_base=2`. -/
def invoke_agent (env : WorkerEnv) : RetryOutcome AgentResults :=
  retry_with_exponential_backoff env.agentAttempts 3 1 60 2

/-- A full run of `process_job` on one dispatch message: the ordered trace
of `update_job_status` calls, the store after applying them, the
re-raised exception if any, the keys written to the generated bucket, and
the retry sleeps performed. -/
structure WorkerRun where
  updates : List StatusUpdate
  store : JobStore
  raised : Option ExnInfo
  s3Writes : List String
  delays : List ℚ

/-- The placeholder payload Python renders for an absent dict
(`agent_results.get(key, {})`). -/
def emptyDict : String := "\x7b\x7d"

/-- `process_job` from process-worker/handler.py lines 208-310. The trace
records each `update_job_status` call in source order: progress 10, then 20
after the download, 30 before the agent call, 80 after it, 90 after the
optional avatar upload, and finally `completed`/100 with the results dict
— or, on any exception, a single unconditional `failed` write carrying
`f"{type(e).__name__}: {str(e)}"`, after which the exception is re-raised.
The resulting store is the in-order application of the trace. -/
def process_job (env : WorkerEnv) (store0 : JobStore) (now : Nat)
    (job_id s3_upload_key : String) : WorkerRun :=
  let u10 : StatusUpdate := ⟨"processing", some 10, none, none⟩
  let failUpd := fun (e : ExnInfo) =>
    (⟨"failed", none, some (e.name ++ ": " ++ e.msg), none⟩ : StatusUpdate)
  let run :=
    match env.download s3_upload_key with
    | .error e => (([u10, failUpd e] : List StatusUpdate), some e, ([] : List String), ([] : List ℚ))
    | .ok _image =>
      let u20 : StatusUpdate := ⟨"processing", some 20, none, none⟩
      let u30 : StatusUpdate := ⟨"processing", some 30, none, none⟩
      let r := invoke_agent env
      match r.outcome with
      | .error e => ([u10, u20, u30, failUpd e], some e, [], r.delays)
      | .ok agent_results =>
        let u80 : StatusUpdate := ⟨"processing", some 80, none, none⟩
        let avatar_key := "generated/" ++ job_id ++ "/avatar.png"
        let u90 : StatusUpdate := ⟨"processing", some 90, none, none⟩
        let results : ResultsDict :=
          { identity_package := some (agent_results.identity_package.getD emptyDict),
            pet_analysis := some (agent_results.pet_analysis.getD emptyDict),
            s3_avatar_key := some avatar_key }
        let uDone : StatusUpdate := ⟨"completed", some 100, none, some results⟩
        if optStrTruthy agent_results.avatar_image_base64 then
          match env.upload avatar_key with
          | .error e => ([u10, u20, u30, u80, failUpd e], some e, [], r.delays)
          | .ok _ => ([u10, u20, u30, u80, u90, uDone], none, [avatar_key], r.delays)
        else ([u10, u20, u30, u80, u90, uDone], none, [], r.delays)
  { updates := run.1,
    store := run.1.foldl (fun s u => applyStatusUpdate s now job_id u) store0,
    raised := run.2.1, s3Writes := run.2.2.1, delays := run.2.2.2 }

/-- Semantics of the regex fragment `(.+)$` against a remainder string
(as Python `re` sees it: `.` matches anything but a newline, `$` matches
at the end or just before one trailing newline). Returns the captured
group when the fragment matches the whole remainder. -/
def dotPlusGroup (s : List Char) : Option (List Char) :=
  if s.isEmpty then none
  else if !(s.contains '\n') then some s
  else if s.getLast? == some '\n' && !(s.dropLast.contains '\n') && !s.dropLast.isEmpty then
    some s.dropLast
  else none

/-- Whether `.+$` matches the remainder. -/
def dotPlusDollar (s : List Char) : Bool :=
  (dotPlusGroup s).isSome

/-- Semantics of matching `uploads/([^/]+)/` at the start of a key:
returns the captured group (the maximal nonempty run of non-slash
characters after the literal `uploads/`) and the remainder after the
following slash. -/
def uploadsKeyGroup (l : List Char) : Option (List Char × List Char) :=
  if l.take 8 = "uploads/".toList then
    let r := l.drop 8
    let g := r.takeWhile (fun c => c != '/')
    match r.dropWhile (fun c => c != '/') with
    | [] => none
    | _ :: rest => if g.isEmpty then none else some (g, rest)
  else none

/-- `validate_object_key` from s3-event-handler/handler.py lines 22-40:
`re.match(r'^uploads/([^/]+)/.+$', key)`, returning the job id on a
match and `None` otherwise. -/
def validate_object_key (key : String) : Option String :=
  match uploadsKeyGroup key.toList with
  | none => none
  | some (g, rest) => if dotPlusDollar rest then some g.asString else none

/-- `extract_job_id` from process-handler/handler.py lines 131-149:
`re.match(r'uploads/([^/]+)/', key)`; on a match the captured group, else
a freshly generated UUID (passed in as an oracle). -/
def extract_job_id (key freshUuid : String) : String :=
  match uploadsKeyGroup key.toList with
  | none => freshUuid
  | some (g, _) => g.asString

/-- `parse_s3_uri` from process-handler/handler.py lines 58-81:
`re.match(r'^s3://([^/]+)/(.+)$', s3_uri)` split into bucket and key;
`none` models the raised `ValueError`. -/
def parse_s3_uri (uri : String) : Option (String × String) :=
  let l := uri.toList
  if l.take 5 = "s3://".toList then
    let r := l.drop 5
    let bucket := r.takeWhile (fun c => c != '/')
    match r.dropWhile (fun c => c != '/') with
    | [] => none
    | _ :: rest =>
      if bucket.isEmpty then none
      else
        match dotPlusGroup rest with
        | none => none
        | some key => some (bucket.asString, key.asString)
  else none

/-- A presigned artifact URL: the bucket, the object key and the
expiry bound in seconds passed to `generate_presigned_url`. -/
structure PresignedUrl where
  bucket : String
  key : String
  expiresIn : Nat
deriving DecidableEq, Repr

/-- The relevant content of a Lambda HTTP response: the status code and
the JSON body fields any of the four handlers may set. Unset fields are
`none`. `detailsStatus`/`detailsProgress` are the entries of the `details`
dict of an error response when present. -/
structure Response where
  statusCode : Nat
  errorMsg : Option String := none
  errorType : Option String := none
  detailsStatus : Option (Option String) := none
  detailsProgress : Option Nat := none
  jobId : Option String := none
  jobStatus : Option String := none
  jobProgress : Option Nat := none
  errorField : Option String := none
  avatarUrl : Option PresignedUrl := none
  identity : Option String := none
  petAnalysis : Option String := none
  message : Option String := none
  processed : Option Nat := none
  errorCount : Option Nat := none
deriving DecidableEq, Repr

/-- `create_error_response` from src/utils/error_handling.py lines
262-313: a response with an error message, an optional error type tag and
an optional `details` dict (modelled by its status/progress entries). -/
def create_error_response (status_code : Nat) (error_message : String)
    (error_type : Option String) (details : Option (Option String × Nat)) : Response :=
  { statusCode := status_code, errorMsg := some error_message,
    errorType := error_type,
    detailsStatus := details.map Prod.fst,
    detailsProgress := details.map Prod.snd }

/-- Secrets Manager environment of `validate_api_key`: the value of the
`API_KEY_SECRET_ARN` environment variable, and the outcome of fetching
and JSON-decoding the secret (`.get('api_key')`, so possibly absent). -/
structure SecretsEnv where
  secretArn : Option String
  fetch : Except ExnInfo (Option String)

/-- `validate_api_key` as defined identically in process-handler,
status-handler and result-handler (lines 24-55 / 21-52 / 21-52): a falsy
key is invalid; with no secret ARN configured any non-empty key is
accepted ("for local testing"); otherwise the key must equal the stored
secret, and any exception while fetching it makes validation fail. -/
def validate_api_key (env : SecretsEnv) (api_key : Option String) : Bool :=
  if !optStrTruthy api_key then false
  else if !optStrTruthy env.secretArn then true
  else
    match env.fetch with
    | .error _ => false
    | .ok valid_key => api_key == valid_key

/-- A job-store or queue side effect performed by a handler. -/
inductive Effect where
  | dbGet (job_id : String)
  | dbPut (job_id : String) (item : Job)
  | dbUpdate (job_id : String)
  | sqsSend (job_id object_key : String)
deriving DecidableEq, Repr

/-- What a handler invocation produces: the HTTP response, the job store
afterwards, and the ordered trace of store/queue effects. -/
structure HandlerResult where
  response : Response
  store : JobStore
  effects : List Effect

/-- Metadata returned by `head_object`. -/
structure S3Meta where
  contentType : String
  contentLength : Nat
deriving DecidableEq, Repr

/-- Failure modes of `head_object` distinguished by `validate_s3_object`. -/
inductive HeadErr where
  | noSuchKey
  | other (e : ExnInfo)
deriving DecidableEq, Repr

/-- Environment of the process handler: the secrets environment, whether
`DYNAMODB_TABLE_NAME` and `SQS_QUEUE_URL` are configured, the
`head_object` oracle, the UUID that `uuid.uuid4()` would generate, and
the current time. -/
structure ProcessEnv where
  secrets : SecretsEnv
  tableConfigured : Bool
  queueConfigured : Bool
  headObject : String → String → Except HeadErr S3Meta
  freshUuid : String
  now : Nat

/-- `validate_s3_object` from process-handler/handler.py lines 84-128:
head the object, then require an allow-listed content type and a size of
at most 50MB; `.error msg` models the raised `ValueError(msg)`. -/
def validate_s3_object (env : ProcessEnv) (bucket key : String) : Except String S3Meta :=
  match env.headObject bucket key with
  | .error .noSuchKey => .error ("S3 object not found: s3://" ++ bucket ++ "/" ++ key)
  | .error (.other e) => .error ("Error accessing S3 object: " ++ e.msg)
  | .ok meta =>
    if !(["image/jpeg", "image/png", "image/heic"].contains meta.contentType) then
      .error ("Invalid image format: " ++ meta.contentType ++ ". Supported formats: JPEG, PNG, HEIC")
    else if meta.contentLength > 50 * 1024 * 1024 then
      .error ("Image too large: " ++ toString meta.contentLength ++ " bytes. Maximum size: " ++ toString (50 * 1024 * 1024) ++ " bytes (50MB)")
    else .ok meta

/-- The process handler (process-handler/handler.py lines 152-297): API
key check, body and S3-URI validation, object validation, job-id
extraction, then an unconditional `put_item` of a fresh queued record and
an SQS dispatch. The missing-environment `ValueError` surfaces as a 400
via the `handle_lambda_errors` decorator. -/
def process_handler (env : ProcessEnv) (apiKey s3_uri : Option String)
    (store : JobStore) : HandlerResult :=
  if !validate_api_key env.secrets apiKey then
    { response := create_error_response 401 "Unauthorized: Invalid API key" (some "AuthenticationError") none,
      store := store, effects := [] }
  else if !optStrTruthy s3_uri then
    { response := create_error_response 400 "Missing s3_uri parameter" (some "ValidationError") none,
      store := store, effects := [] }
  else
    match parse_s3_uri (s3_uri.getD "") with
    | none =>
      { response := create_error_response 400 "Invalid S3 URI format. Expected: s3://bucket-name/key" (some "ValidationError") none,
        store := store, effects := [] }
    | some (bucket, key) =>
      match validate_s3_object env bucket key with
      | .error msg =>
        { response := create_error_response 400 msg (some "ValidationError") none,
          store := store, effects := [] }
      | .ok _meta =>
        let job_id := extract_job_id key env.freshUuid
        if !(env.tableConfigured && env.queueConfigured) then
          { response := create_error_response 400 "Missing required environment variables" (some "ValidationError") none,
            store := store, effects := [] }
        else
          let item := newJobItem key env.now
          { response := { statusCode := 200, jobId := some job_id,
                          jobStatus := some "queued", message := some "Processing initiated" },
            store := store.put job_id item,
            effects := [Effect.dbPut job_id item, Effect.sqsSend job_id key] }

/-- One record of an S3 event notification, reduced to the fields the
handler reads. -/
structure S3Record where
  bucketName : Option String
  objectKey : Option String
deriving DecidableEq, Repr

/-- Accumulator of the s3-event handler's record loop. -/
structure BatchState where
  store : JobStore
  effects : List Effect
  processed : Nat
  errorCount : Nat

/-- The body of the record loop of s3-event-handler/handler.py lines
76-194: skip (counting an error) records with a missing bucket or key or
a key that does not match the upload convention; otherwise `get_item`,
then either create a fresh queued record or refresh only `updated_at` and
`s3_upload_key` of the existing one, and finally enqueue a dispatch
message. -/
def processS3Record (now : Nat) (st : BatchState) (r : S3Record) : BatchState :=
  if !(optStrTruthy r.bucketName && optStrTruthy r.objectKey) then
    { st with errorCount := st.errorCount + 1 }
  else
    let key := r.objectKey.getD ""
    match validate_object_key key with
    | none => { st with errorCount := st.errorCount + 1 }
    | some job_id =>
      let afterDb :=
        match st.store job_id with
        | none =>
          let item := newJobItem key now
          { st with store := st.store.put job_id item,
                    effects := st.effects ++ [Effect.dbGet job_id, Effect.dbPut job_id item] }
        | some existing =>
          let item := { existing with updated_at := some now, s3_upload_key := some key }
          { st with store := st.store.put job_id item,
                    effects := st.effects ++ [Effect.dbGet job_id, Effect.dbUpdate job_id] }
      { afterDb with effects := afterDb.effects ++ [Effect.sqsSend job_id key],
                     processed := afterDb.processed + 1 }

/-- The s3-event handler (s3-event-handler/handler.py lines 43-217):
after the environment check, fold the record loop over the batch and
return a 200 response carrying the processed and error counts. -/
def s3_event_handler (tableConfigured queueConfigured : Bool) (now : Nat)
    (store : JobStore) (records : List S3Record) : HandlerResult :=
  if !(tableConfigured && queueConfigured) then
    { response := create_error_response 400 "Missing required environment variables" (some "ValidationError") none,
      store := store, effects := [] }
  else
    let final := records.foldl (processS3Record now) ⟨store, [], 0, 0⟩
    { response := { statusCode := 200, message := some "Events processed",
                    processed := some final.processed, errorCount := some final.errorCount },
      store := final.store, effects := final.effects }

/-- Environment of the status handler. -/
structure StatusEnv where
  secrets : SecretsEnv
  tableConfigured : Bool

/-- The status handler (status-handler/handler.py lines 55-150): API key
check, job-id check, environment check, then one `get_item`; 404 when the
record is absent, otherwise a 200 with status and progress, plus the
stored error message when the status is `failed`. -/
def status_handler (env : StatusEnv) (apiKey jobId : Option String)
    (store : JobStore) : HandlerResult :=
  if !validate_api_key env.secrets apiKey then
    { response := create_error_response 401 "Unauthorized: Invalid API key" (some "AuthenticationError") none,
      store := store, effects := [] }
  else if !optStrTruthy jobId then
    { response := create_error_response 400 "Missing job_id parameter" (some "ValidationError") none,
      store := store, effects := [] }
  else if !env.tableConfigured then
    { response := create_error_response 400 "DYNAMODB_TABLE_NAME environment variable not set" (some "ValidationError") none,
      store := store, effects := [] }
  else
    let jid := jobId.getD ""
    match store jid with
    | none =>
      { response := create_error_response 404 ("Job not found: " ++ jid) (some "NotFoundError") none,
        store := store, effects := [Effect.dbGet jid] }
    | some item =>
      let base : Response :=
        { statusCode := 200, jobId := some jid,
          jobStatus := some (item.status.getD "unknown"),
          jobProgress := some (item.progress.getD 0) }
      let resp :=
        if item.status == some "failed" && item.error_message.isSome then
          { base with errorField := item.error_message }
        else base
      { response := resp, store := store, effects := [Effect.dbGet jid] }

/-- Environment of the result handler: secrets, configuration flags for
`DYNAMODB_TABLE_NAME` and `S3_GENERATED_BUCKET`, and the generated
bucket's name. -/
structure ResultEnv where
  secrets : SecretsEnv
  tableConfigured : Bool
  bucketConfigured : Bool
  generatedBucket : String

/-- The result handler (result-handler/handler.py lines 55-205): API key
check, job-id check, environment check, one `get_item`; 404 when absent,
409 with the current status and progress when not `completed`, 500 when
`completed` but the stored avatar key is falsy, and otherwise a 200
carrying a presigned URL (1 hour) and the stored payload. -/
def result_handler (env : ResultEnv) (apiKey jobId : Option String)
    (store : JobStore) : HandlerResult :=
  if !validate_api_key env.secrets apiKey then
    { response := create_error_response 401 "Unauthorized: Invalid API key" (some "AuthenticationError") none,
      store := store, effects := [] }
  else if !optStrTruthy jobId then
    { response := create_error_response 400 "Missing job_id parameter" (some "ValidationError") none,
      store := store, effects := [] }
  else if !(env.tableConfigured && env.bucketConfigured) then
    { response := create_error_response 400 "Missing required environment variables" (some "ValidationError") none,
      store := store, effects := [] }
  else
    let jid := jobId.getD ""
    match store jid with
    | none =>
      { response := create_error_response 404 ("Job not found: " ++ jid) (some "NotFoundError") none,
        store := store, effects := [Effect.dbGet jid] }
    | some item =>
      if item.status ≠ some "completed" then
        { response := create_error_response 409
            ("Job not completed. Current status: " ++ item.status.getD "None")
            (some "ConflictError") (some (item.status, item.progress.getD 0)),
          store := store, effects := [Effect.dbGet jid] }
      else if !optStrTruthy item.s3_avatar_key then
        { response := create_error_response 500 "Avatar image not found" (some "InternalError") none,
          store := store, effects := [Effect.dbGet jid] }
      else
        let avatar_key := item.s3_avatar_key.getD ""
        { response := { statusCode := 200, jobId := some jid,
                        avatarUrl := some ⟨env.generatedBucket, avatar_key, 3600⟩,
                        identity := some (item.identity_package.getD emptyDict),
                        petAnalysis := some (item.pet_analysis.getD emptyDict) },
          store := store, effects := [Effect.dbGet jid] }

/- ------------------------------------------------------------------ -/
/- Helper lemmas shared by several claims.                             -/
/- ------------------------------------------------------------------ -/

theorem JobStore.put_self (s : JobStore) (k : String) (v : Job) : s.put k v k = some v := by
  simp [JobStore.put]

theorem JobStore.put_other (s : JobStore) (k k' : String) (v : Job) (h : k' ≠ k) :
    s.put k v k' = s k' := by
  simp [JobStore.put, h]

theorem applyUpdateItem_status (b : Job) (now : Nat) (st : String) (p : Option Nat)
    (e : Option String) (r : Option ResultsDict) :
    (applyUpdateItem b now st p e r).status = some st := by
  unfold applyUpdateItem
  dsimp only
  repeat' split
  all_goals rfl

theorem applyUpdateItem_progress_some (b : Job) (now : Nat) (st : String) (q : Nat)
    (e : Option String) (r : Option ResultsDict) :
    (applyUpdateItem b now st (some q) e r).progress = some q := by
  unfold applyUpdateItem
  dsimp only
  repeat' split
  all_goals rfl

theorem applyUpdateItem_progress_none (b : Job) (now : Nat) (st : String)
    (e : Option String) (r : Option ResultsDict) :
    (applyUpdateItem b now st none e r).progress = b.progress := by
  unfold applyUpdateItem
  dsimp only
  repeat' split
  all_goals rfl

theorem applyUpdateItem_error_truthy (b : Job) (now : Nat) (st : String) (p : Option Nat)
    (e : Option String) (r : Option ResultsDict) (h : optStrTruthy e = true) :
    (applyUpdateItem b now st p e r).error_message = e := by
  unfold applyUpdateItem
  dsimp only
  repeat' split
  all_goals simp_all

theorem applyUpdateItem_error_falsy (b : Job) (now : Nat) (st : String) (p : Option Nat)
    (e : Option String) (r : Option ResultsDict) (h : optStrTruthy e = false) :
    (applyUpdateItem b now st p e r).error_message = b.error_message := by
  unfold applyUpdateItem
  dsimp only
  repeat' split
  all_goals simp_all

theorem errString_truthy (e : ExnInfo) :
    optStrTruthy (some (e.name ++ ": " ++ e.msg)) = true := by
  have h : e.name ++ ": " ++ e.msg ≠ "" := by
    intro hc
    have hd := congrArg String.data hc
    simp [String.data_append] at hd
  have h2 : (e.name ++ ": " ++ e.msg).isEmpty = false := by
    rw [Bool.eq_false_iff]
    intro ht
    exact h ((String.isEmpty_iff _).mp ht)
  simp [optStrTruthy, h2]

theorem update_job_status_at (store : JobStore) (now : Nat) (job_id st : String)
    (p : Option Nat) (e : Option String) (r : Option ResultsDict) :
    update_job_status store now job_id st p e r job_id =
      some (applyUpdateItem ((store job_id).getD Job.blank) now st p e r) := by
  simp [update_job_status, JobStore.put]

/- ------------------------------------------------------------------ -/
/- C10                                                                 -/
/- ------------------------------------------------------------------ -/

/-- C10: for every object key matching `uploads/{job_id}/<non-empty rest>`,
the job id extracted by the client-request path (`extract_job_id` in the
process handler) equals the job id extracted by the storage-event path
(`validate_object_key` in the s3-event handler), so the two ingestion
triggers converge on the same job record. -/
theorem C10_extraction_paths_agree (key id freshUuid : String)
    (h : validate_object_key key = some id) :
    extract_job_id key freshUuid = id := by
  unfold validate_object_key at h
  unfold extract_job_id
  cases hg : uploadsKeyGroup key.toList with
  | none => rw [hg] at h; simp at h
  | some p =>
    obtain ⟨g, rest⟩ := p
    rw [hg] at h
    dsimp only at h ⊢
    by_cases hd : dotPlusDollar rest = true
    · rw [if_pos hd] at h
      simpa using h
    · rw [if_neg hd] at h
      simp at h

/-- Witness for C10 at a concrete upload key. -/
theorem C10_extraction_paths_agree_witness :
    extract_job_id "uploads/j1/cat.png" "fresh-uuid" = "j1" :=
  C10_extraction_paths_agree "uploads/j1/cat.png" "j1" "fresh-uuid" (by decide)

/- ------------------------------------------------------------------ -/
/- C9                                                                  -/
/- ------------------------------------------------------------------ -/

/-- C9: with the central secret configured, any request to the three
client-facing handlers whose pre-shared credential is missing, empty or
different from the stored secret receives a 401 response, the job store
is unchanged, and no job-store read or write effect is performed. -/
theorem C9_bad_credential_rejected (senv : SecretsEnv) (validKey : String)
    (apiKey : Option String)
    (harn : optStrTruthy senv.secretArn = true)
    (hfetch : senv.fetch = .ok (some validKey))
    (hbad : apiKey = none ∨ apiKey = some "" ∨ ∀ s, apiKey = some s → s ≠ validKey) :
    validate_api_key senv apiKey = false ∧
    (∀ (tc qc : Bool) ho uuid now uri store,
      (process_handler ⟨senv, tc, qc, ho, uuid, now⟩ apiKey uri store).response.statusCode = 401 ∧
      (process_handler ⟨senv, tc, qc, ho, uuid, now⟩ apiKey uri store).store = store ∧
      (process_handler ⟨senv, tc, qc, ho, uuid, now⟩ apiKey uri store).effects = []) ∧
    (∀ (tc : Bool) jobId store,
      (status_handler ⟨senv, tc⟩ apiKey jobId store).response.statusCode = 401 ∧
      (status_handler ⟨senv, tc⟩ apiKey jobId store).store = store ∧
      (status_handler ⟨senv, tc⟩ apiKey jobId store).effects = []) ∧
    (∀ (tc bc : Bool) gb jobId store,
      (result_handler ⟨senv, tc, bc, gb⟩ apiKey jobId store).response.statusCode = 401 ∧
      (result_handler ⟨senv, tc, bc, gb⟩ apiKey jobId store).store = store ∧
      (result_handler ⟨senv, tc, bc, gb⟩ apiKey jobId store).effects = []) := by
  have hv : validate_api_key senv apiKey = false := by
    unfold validate_api_key
    rcases hbad with h | h | h
    · subst h; rfl
    · subst h; rfl
    · cases apiKey with
      | none => simp [optStrTruthy]
      | some s =>
        by_cases hemp : s = ""
        · subst hemp; rfl
        · have hs := h s rfl
          have hie : s.isEmpty = false := by
            rw [Bool.eq_false_iff]
            intro ht
            exact hemp ((String.isEmpty_iff _).mp ht)
          rw [if_neg (by simp [optStrTruthy, hie])]
          rw [if_neg (by simp [harn])]
          rw [hfetch]
          simp [hs]
  refine ⟨hv, ?_, ?_, ?_⟩
  · intro tc qc ho uuid now uri store
    refine ⟨?_, ?_, ?_⟩ <;> simp [process_handler, hv, create_error_response]
  · intro tc jobId store
    refine ⟨?_, ?_, ?_⟩ <;> simp [status_handler, hv, create_error_response]
  · intro tc bc gb jobId store
    refine ⟨?_, ?_, ?_⟩ <;> simp [result_handler, hv, create_error_response]

/-- Witness for C9: a concrete mismatching key against a configured
secret yields a 401 from the status handler with no store effects. -/
theorem C9_bad_credential_rejected_witness :
    validate_api_key ⟨some "arn:secret", .ok (some "right-key")⟩ (some "wrong-key") = false ∧
    (status_handler ⟨⟨some "arn:secret", .ok (some "right-key")⟩, true⟩ (some "wrong-key")
        (some "j1") JobStore.empty).response.statusCode = 401 ∧
    (status_handler ⟨⟨some "arn:secret", .ok (some "right-key")⟩, true⟩ (some "wrong-key")
        (some "j1") JobStore.empty).effects = [] := by
  have H := C9_bad_credential_rejected ⟨some "arn:secret", .ok (some "right-key")⟩
    "right-key" (some "wrong-key") (by decide) rfl
    (Or.inr (Or.inr (by intro s hs; cases hs; decide)))
  exact ⟨H.1, (H.2.2.1 true (some "j1") JobStore.empty).1,
    (H.2.2.1 true (some "j1") JobStore.empty).2.2⟩

/- ------------------------------------------------------------------ -/
/- C8                                                                  -/
/- ------------------------------------------------------------------ -/

theorem processS3Record_invalid (now : Nat) (st : BatchState) (r : S3Record)
    (h : validate_object_key (r.objectKey.getD "") = none) :
    processS3Record now st r = { st with errorCount := st.errorCount + 1 } := by
  unfold processS3Record
  cases hb : (optStrTruthy r.bucketName && optStrTruthy r.objectKey) with
  | false => rw [if_pos (by simp [hb])]
  | true =>
    rw [if_neg (by simp [hb])]
    dsimp only
    rw [h]

theorem s3_batch_all_invalid (now : Nat) (records : List S3Record) (st : BatchState)
    (h : ∀ r ∈ records, validate_object_key (r.objectKey.getD "") = none) :
    records.foldl (processS3Record now) st =
      { st with errorCount := st.errorCount + records.length } := by
  induction records generalizing st with
  | nil => simp
  | cons r rs ih =>
    rw [List.foldl_cons, processS3Record_invalid now st r (h r (by simp))]
    rw [ih _ (fun x hx => h x (by simp [hx]))]
    simp [BatchState.mk.injEq]
    omega

/-- C8: a storage-event batch in which every record's object key fails the
`uploads/{job_id}/<rest>` convention creates no job record, enqueues no
dispatch message, counts each such event as an error, and still returns a
200 batch response. -/
theorem C8_invalid_keys_skipped (now : Nat) (store : JobStore) (records : List S3Record)
    (h : ∀ r ∈ records, validate_object_key (r.objectKey.getD "") = none) :
    (s3_event_handler true true now store records).store = store ∧
    (s3_event_handler true true now store records).effects = [] ∧
    (s3_event_handler true true now store records).response.statusCode = 200 ∧
    (s3_event_handler true true now store records).response.errorCount = some records.length ∧
    (s3_event_handler true true now store records).response.processed = some 0 := by
  unfold s3_event_handler
  rw [if_neg (by simp)]
  rw [s3_batch_all_invalid now records ⟨store, [], 0, 0⟩ h]
  simp

/-- Witness for C8: a concrete two-record batch with non-matching keys. -/
theorem C8_invalid_keys_skipped_witness :
    (s3_event_handler true true 7 JobStore.empty
        [⟨some "bucket", some "downloads/j1/cat.png"⟩, ⟨some "bucket", some "uploads/j2/"⟩]).store
      = JobStore.empty ∧
    (s3_event_handler true true 7 JobStore.empty
        [⟨some "bucket", some "downloads/j1/cat.png"⟩, ⟨some "bucket", some "uploads/j2/"⟩]).effects
      = [] ∧
    (s3_event_handler true true 7 JobStore.empty
        [⟨some "bucket", some "downloads/j1/cat.png"⟩, ⟨some "bucket", some "uploads/j2/"⟩]).response.statusCode
      = 200 ∧
    (s3_event_handler true true 7 JobStore.empty
        [⟨some "bucket", some "downloads/j1/cat.png"⟩, ⟨some "bucket", some "uploads/j2/"⟩]).response.errorCount
      = some 2 := by
  have H := C8_invalid_keys_skipped 7 JobStore.empty
    [⟨some "bucket", some "downloads/j1/cat.png"⟩, ⟨some "bucket", some "uploads/j2/"⟩]
    (by intro r hr; simp at hr; rcases hr with h | h <;> subst h <;> decide)
  exact ⟨H.1, H.2.1, H.2.2.1, H.2.2.2.1⟩

/- ------------------------------------------------------------------ -/
/- C6                                                                  -/
/- ------------------------------------------------------------------ -/

theorem range_three : List.range 3 = [0, 1, 2] := by decide

theorem jobField_status_after_update (store : JobStore) (now : Nat) (id : String)
    (u : StatusUpdate) :
    jobField Job.status (applyStatusUpdate store now id u) id = some u.status := by
  unfold jobField applyStatusUpdate
  rw [update_job_status_at]
  simp [applyUpdateItem_status]

/-- C6: the worker calls the Generation Service at most 3 times per
invocation; the sleeps between consecutive attempts follow the
base-delay-doubling schedule capped at the maximum delay; and when every
attempt raises, the last exception propagates out of `invoke_agent`, the
job is transitioned to `failed`, and `process_job` re-raises it. -/
theorem C6_bounded_retry_backoff (env : WorkerEnv) :
    (invoke_agent env).calls ≤ 3 ∧
    (invoke_agent env).delays =
      List.take ((invoke_agent env).calls - 1)
        [min ((1 : ℚ) * 2 ^ 0) 60, min ((1 : ℚ) * 2 ^ 1) 60] ∧
    (∀ e0 e1 e2, env.agentAttempts 0 = .error e0 → env.agentAttempts 1 = .error e1 →
      env.agentAttempts 2 = .error e2 →
      (invoke_agent env).outcome = .error e2 ∧
      ∀ store now id key img, env.download key = .ok img →
        jobField Job.status (process_job env store now id key).store id = some "failed" ∧
        (process_job env store now id key).raised = some e2) := by
  cases h0 : env.agentAttempts 0 with
  | ok a0 =>
    refine ⟨?_, ?_, ?_⟩
    · simp [invoke_agent, retry_with_exponential_backoff, range_three, retryList, h0]
    · simp [invoke_agent, retry_with_exponential_backoff, range_three, retryList, h0]
    · intro e0 e1 e2 he0 he1 he2
      exact absurd he0 (by simp)
  | error e0 =>
    cases h1 : env.agentAttempts 1 with
    | ok a1 =>
      refine ⟨?_, ?_, ?_⟩
      · simp [invoke_agent, retry_with_exponential_backoff, range_three, retryList, h0, h1]
      · simp [invoke_agent, retry_with_exponential_backoff, range_three, retryList, h0, h1]
      · intro e0' e1' e2' he0 he1 he2
        exact absurd he1 (by simp)
    | error e1 =>
      cases h2 : env.agentAttempts 2 with
      | ok a2 =>
        refine ⟨?_, ?_, ?_⟩
        · simp [invoke_agent, retry_with_exponential_backoff, range_three, retryList, h0, h1, h2]
        · simp [invoke_agent, retry_with_exponential_backoff, range_three, retryList, h0, h1, h2]
        · intro e0' e1' e2' he0 he1 he2
          exact absurd he2 (by simp)
      | error e2 =>
        have hout : (invoke_agent env).outcome = .error e2 := by
          simp [invoke_agent, retry_with_exponential_backoff, range_three, retryList, h0, h1, h2]
        refine ⟨?_, ?_, ?_⟩
        · simp [invoke_agent, retry_with_exponential_backoff, range_three, retryList, h0, h1, h2]
        · simp [invoke_agent, retry_with_exponential_backoff, range_three, retryList, h0, h1, h2]
        · intro e0' e1' e2' he0 he1 he2
          injection he2 with he
          subst he
          refine ⟨hout, ?_⟩
          intro store now id key img hdl
          constructor
          · simp [process_job, hdl, hout, jobField_status_after_update]
          · simp [process_job, hdl, hout]

/-- Concrete worker environment whose agent call always raises. -/
def envAllFail : WorkerEnv :=
  { download := fun _ => .ok "bytes",
    agentAttempts := fun _ => .error ⟨"ThrottlingException", "rate exceeded"⟩,
    upload := fun _ => .ok () }

/-- Witness for C6: with every attempt raising, the last exception
propagates and the job ends `failed`. -/
theorem C6_bounded_retry_backoff_witness :
    (invoke_agent envAllFail).outcome = .error ⟨"ThrottlingException", "rate exceeded"⟩ ∧
    jobField Job.status
      (process_job envAllFail JobStore.empty 1 "j1" "uploads/j1/cat.png").store "j1" =
      some "failed" := by
  have H := (C6_bounded_retry_backoff envAllFail).2.2
    ⟨"ThrottlingException", "rate exceeded"⟩ ⟨"ThrottlingException", "rate exceeded"⟩
    ⟨"ThrottlingException", "rate exceeded"⟩ rfl rfl rfl
  exact ⟨H.1, (H.2 JobStore.empty 1 "j1" "uploads/j1/cat.png" "bytes" rfl).1⟩

/- ------------------------------------------------------------------ -/
/- C7                                                                  -/
/- ------------------------------------------------------------------ -/

/-- C7: for a get-result request with a valid credential on the
configured system: 404 when no record exists; 409 carrying the current
status and progress when the status is not `completed`; 500 when
`completed` but the stored artifact reference is falsy; otherwise 200
with the job id, a presigned URL bounded to 3600 seconds, and the stored
payload. -/
theorem C7_result_contract (env : ResultEnv) (apiKey : Option String)
    (jid : String) (store : JobStore)
    (hk : validate_api_key env.secrets apiKey = true)
    (hjid : jid ≠ "")
    (htc : env.tableConfigured = true) (hbc : env.bucketConfigured = true) :
    (store jid = none →
      (result_handler env apiKey (some jid) store).response.statusCode = 404) ∧
    (∀ J, store jid = some J → J.status ≠ some "completed" →
      (result_handler env apiKey (some jid) store).response.statusCode = 409 ∧
      (result_handler env apiKey (some jid) store).response.detailsStatus = some J.status ∧
      (result_handler env apiKey (some jid) store).response.detailsProgress =
        some (J.progress.getD 0)) ∧
    (∀ J, store jid = some J → J.status = some "completed" →
      optStrTruthy J.s3_avatar_key = false →
      (result_handler env apiKey (some jid) store).response.statusCode = 500) ∧
    (∀ J k, store jid = some J → J.status = some "completed" →
      J.s3_avatar_key = some k → k ≠ "" →
      (result_handler env apiKey (some jid) store).response.statusCode = 200 ∧
      (result_handler env apiKey (some jid) store).response.jobId = some jid ∧
      (result_handler env apiKey (some jid) store).response.avatarUrl =
        some ⟨env.generatedBucket, k, 3600⟩ ∧
      (result_handler env apiKey (some jid) store).response.identity =
        some (J.identity_package.getD emptyDict) ∧
      (result_handler env apiKey (some jid) store).response.petAnalysis =
        some (J.pet_analysis.getD emptyDict)) := by
  have hje : jid.isEmpty = false := by
    rw [Bool.eq_false_iff]
    intro ht
    exact hjid ((String.isEmpty_iff _).mp ht)
  refine ⟨?_, ?_, ?_, ?_⟩
  · intro hnone
    simp [result_handler, hk, optStrTruthy, hje, htc, hbc, hnone, create_error_response]
  · intro J hJ hnc
    refine ⟨?_, ?_, ?_⟩ <;>
      simp [result_handler, hk, optStrTruthy, hje, htc, hbc, hJ, hnc, create_error_response]
  · intro J hJ hc hfalsy
    have hjidT : optStrTruthy (some jid) = true := by simp [optStrTruthy, hje]
    simp [result_handler, hk, hjidT, htc, hbc, hJ, hc, hfalsy, create_error_response]
  · intro J k hJ hc hk2 hkne
    have hke : k.isEmpty = false := by
      rw [Bool.eq_false_iff]
      intro ht
      exact hkne ((String.isEmpty_iff _).mp ht)
    refine ⟨?_, ?_, ?_, ?_, ?_⟩ <;>
      simp [result_handler, hk, optStrTruthy, hje, htc, hbc, hJ, hc, hk2, hke]

/-- A completed job with a stored avatar key, as the worker writes it. -/
def jobC7 : Job :=
  { status := some "completed", progress := some 100, error_message := none,
    identity_package := some "identity-pkg", pet_analysis := some "pet-analysis",
    s3_avatar_key := some "generated/j1/avatar.png",
    s3_upload_key := some "uploads/j1/cat.png",
    created_at := some 0, updated_at := some 1, ttl := some 604800 }

/-- Witness for C7: the 200 branch at a concrete completed record. -/
theorem C7_result_contract_witness :
    (result_handler ⟨⟨none, .ok none⟩, true, true, "gen-bucket"⟩ (some "k") (some "j1")
        (JobStore.empty.put "j1" jobC7)).response.statusCode = 200 ∧
    (result_handler ⟨⟨none, .ok none⟩, true, true, "gen-bucket"⟩ (some "k") (some "j1")
        (JobStore.empty.put "j1" jobC7)).response.avatarUrl =
      some ⟨"gen-bucket", "generated/j1/avatar.png", 3600⟩ := by
  have H := C7_result_contract ⟨⟨none, .ok none⟩, true, true, "gen-bucket"⟩ (some "k")
    "j1" (JobStore.empty.put "j1" jobC7) (by decide) (by decide) rfl rfl
  have H4 := H.2.2.2 jobC7 "generated/j1/avatar.png" (by decide) rfl rfl (by decide)
  exact ⟨H4.1, H4.2.2.1⟩

/- ------------------------------------------------------------------ -/
/- Concrete scenario material shared by the remaining claims.          -/
/- ------------------------------------------------------------------ -/

theorem optStrTruthy_none : optStrTruthy none = false := rfl

/-- Successful worker environment: download and upload succeed, the
agent answers on the first attempt with a non-empty avatar image. -/
def envAllOk : WorkerEnv :=
  { download := fun _ => .ok "bytes",
    agentAttempts := fun _ => .ok ⟨some "pa", some "cp", some "QUJD", some "ip"⟩,
    upload := fun _ => .ok () }

/-- Worker environment whose avatar upload is denied. -/
def envUploadFail : WorkerEnv :=
  { download := fun _ => .ok "bytes",
    agentAttempts := fun _ => .ok ⟨some "pa", some "cp", some "QUJD", some "ip"⟩,
    upload := fun _ => .error ⟨"ClientError", "AccessDenied"⟩ }

/-- Worker environment whose download raises. -/
def envDownloadFail : WorkerEnv :=
  { download := fun _ => .error ⟨"NoSuchKey", "The specified key does not exist."⟩,
    agentAttempts := fun _ => .ok ⟨some "pa", some "cp", some "QUJD", some "ip"⟩,
    upload := fun _ => .ok () }

/-- A freshly ingested job record for `j1`. -/
def freshStoreJ1 : JobStore := JobStore.empty.put "j1" (newJobItem "uploads/j1/cat.png" 0)

/-- The store after a fully successful worker run on the fresh record:
`j1` is `completed` with progress 100. -/
def completedStoreJ1 : JobStore :=
  (process_job envAllOk freshStoreJ1 1 "j1" "uploads/j1/cat.png").store

/-- The store after a worker run whose agent call failed every attempt:
`j1` is `failed` at progress 30. -/
def failedStoreJ1 : JobStore :=
  (process_job envAllFail freshStoreJ1 1 "j1" "uploads/j1/cat.png").store

/-- The store after a worker run whose avatar upload was denied:
`j1` is `failed` with progress 80 still stored. -/
def failed80StoreJ1 : JobStore :=
  (process_job envUploadFail freshStoreJ1 1 "j1" "uploads/j1/cat.png").store

/- ------------------------------------------------------------------ -/
/- C1                                                                  -/
/- ------------------------------------------------------------------ -/

/-- Process-handler environment used in concrete scenarios: no secret
configured (any non-empty key accepted), storage fully configured, a
small JPEG behind every reference. -/
def penvOk : ProcessEnv :=
  { secrets := ⟨none, .ok none⟩, tableConfigured := true, queueConfigured := true,
    headObject := fun _ _ => .ok ⟨"image/jpeg", 1000⟩, freshUuid := "uuid-fresh", now := 5 }

/-- C1 counterexample: with `j1` already `completed` at progress 100, a
second client start-processing request for the same uploaded object
overwrites the record back to `queued` with progress 0, so the claim
that no creation trigger overwrites status or progress fails. -/
theorem C1_counterexample :
    jobField Job.status completedStoreJ1 "j1" = some "completed" ∧
    jobField Job.progress completedStoreJ1 "j1" = some 100 ∧
    jobField Job.status
      (process_handler penvOk (some "k") (some "s3://bucket/uploads/j1/cat.png")
        completedStoreJ1).store "j1" = some "queued" ∧
    jobField Job.progress
      (process_handler penvOk (some "k") (some "s3://bucket/uploads/j1/cat.png")
        completedStoreJ1).store "j1" = some 0 := by
  refine ⟨by decide, by decide, by decide, by decide⟩

theorem validate_key_ne_empty (key id : String) (h : validate_object_key key = some id) :
    key ≠ "" := by
  intro hk
  subst hk
  have h0 : validate_object_key "" = none := by decide
  rw [h0] at h
  exact Option.noConfusion h

/-- C1 amended: job creation is idempotent only on the storage-event
path: when a record for `job_id` already exists, the s3-event handler
leaves every field except `updated_at` and `s3_upload_key` unchanged (in
particular status and progress). The client start-processing request, by
contrast, unconditionally replaces the record with a fresh
`queued`/progress-0 item. At most one record per `job_id` holds
structurally, the store being keyed by `job_id`. -/
theorem C1_amended :
    (∀ now st (r : S3Record) key job_id J,
      optStrTruthy r.bucketName = true → r.objectKey = some key →
      validate_object_key key = some job_id → st.store job_id = some J →
      (processS3Record now st r).store job_id =
        some { J with updated_at := some now, s3_upload_key := some key }) ∧
    (∀ env apiKey uri store bucket key meta,
      validate_api_key env.secrets apiKey = true → optStrTruthy uri = true →
      parse_s3_uri (uri.getD "") = some (bucket, key) →
      validate_s3_object env bucket key = .ok meta →
      env.tableConfigured = true → env.queueConfigured = true →
      (process_handler env apiKey uri store).store (extract_job_id key env.freshUuid) =
        some (newJobItem key env.now)) := by
  constructor
  · intro now st r key job_id J hb hko hvk hst
    have hkne : key ≠ "" := validate_key_ne_empty key job_id hvk
    have hke : key.isEmpty = false := by
      rw [Bool.eq_false_iff]
      intro ht
      exact hkne ((String.isEmpty_iff _).mp ht)
    have hkt : optStrTruthy (some key) = true := by simp [optStrTruthy, hke]
    unfold processS3Record
    rw [if_neg (by simp [hb, hko, hkt])]
    dsimp only
    rw [hko]
    simp only [Option.getD_some]
    rw [hvk]
    dsimp only
    rw [hst]
    dsimp only
    exact JobStore.put_self _ _ _
  · intro env apiKey uri store bucket key meta hk huri hparse hobj htc hqc
    unfold process_handler
    rw [if_neg (by simp [hk])]
    rw [if_neg (by simp [huri])]
    rw [hparse]
    dsimp only
    rw [hobj]
    dsimp only
    rw [if_neg (by simp [htc, hqc])]
    dsimp only
    exact JobStore.put_self _ _ _

/-- The `j1` record as the successful worker run leaves it. -/
def jobCompletedJ1 : Job :=
  { status := some "completed", progress := some 100, error_message := none,
    identity_package := some "ip", pet_analysis := some "pa",
    s3_avatar_key := some "generated/j1/avatar.png",
    s3_upload_key := some "uploads/j1/cat.png",
    created_at := some 0, updated_at := some 1, ttl := some 604800 }

/-- Witness for C1 amended: the event path preserves the completed
record (only refreshing timestamp and upload key), and the client path
writes the fresh queued item. -/
theorem C1_amended_witness :
    (processS3Record 9 ⟨completedStoreJ1, [], 0, 0⟩
        ⟨some "bucket", some "uploads/j1/cat.png"⟩).store "j1" =
      some { jobCompletedJ1 with
              updated_at := some 9, s3_upload_key := some "uploads/j1/cat.png" } ∧
    (process_handler penvOk (some "k") (some "s3://bucket/uploads/j1/cat.png")
        JobStore.empty).store (extract_job_id "uploads/j1/cat.png" "uuid-fresh") =
      some (newJobItem "uploads/j1/cat.png" 5) := by
  constructor
  · exact C1_amended.1 9 ⟨completedStoreJ1, [], 0, 0⟩
      ⟨some "bucket", some "uploads/j1/cat.png"⟩ "uploads/j1/cat.png" "j1" jobCompletedJ1
      (by decide) rfl (by decide) (by decide)
  · exact C1_amended.2 penvOk (some "k") (some "s3://bucket/uploads/j1/cat.png")
      JobStore.empty "bucket" "uploads/j1/cat.png" ⟨"image/jpeg", 1000⟩
      (by decide) (by decide) (by decide) rfl rfl rfl

/- ------------------------------------------------------------------ -/
/- C2                                                                  -/
/- ------------------------------------------------------------------ -/

/-- C2 counterexample: a redelivered dispatch message for the already
`completed` job `j1` does not leave the record unchanged: reprocessing it
(here with the input object now missing) mutates the record to `failed`. -/
theorem C2_counterexample :
    jobField Job.status completedStoreJ1 "j1" = some "completed" ∧
    jobField Job.status
      (process_job envDownloadFail completedStoreJ1 2 "j1" "uploads/j1/cat.png").store "j1" =
      some "failed" ∧
    (process_job envDownloadFail completedStoreJ1 2 "j1" "uploads/j1/cat.png").store "j1" ≠
      completedStoreJ1 "j1" := by
  refine ⟨by decide, by decide, by decide⟩

/-- C2 amended: the worker's first status write is unconditional: even
when the stored status is terminal, processing a dispatch message first
writes status `processing` with progress 10 (there is no
expected-status guard and no conflict stop), and the pipeline re-runs. -/
theorem C2_amended (env : WorkerEnv) (store : JobStore) (now : Nat) (id key : String)
    (hterm : jobField Job.status store id = some "completed" ∨
             jobField Job.status store id = some "failed") :
    (process_job env store now id key).updates.head? =
      some ⟨"processing", some 10, none, none⟩ ∧
    jobField Job.status
      (applyStatusUpdate store now id ⟨"processing", some 10, none, none⟩) id =
      some "processing" := by
  constructor
  · unfold process_job
    dsimp only
    repeat' split
    all_goals rfl
  · simpa using jobField_status_after_update store now id ⟨"processing", some 10, none, none⟩

/-- Witness for C2 amended at the concrete completed record. -/
theorem C2_amended_witness :
    (process_job envDownloadFail completedStoreJ1 2 "j1" "uploads/j1/cat.png").updates.head? =
      some ⟨"processing", some 10, none, none⟩ ∧
    jobField Job.status
      (applyStatusUpdate completedStoreJ1 2 "j1" ⟨"processing", some 10, none, none⟩) "j1" =
      some "processing" :=
  C2_amended envDownloadFail completedStoreJ1 2 "j1" "uploads/j1/cat.png" (Or.inl (by decide))

/- ------------------------------------------------------------------ -/
/- C3                                                                  -/
/- ------------------------------------------------------------------ -/

/-- The store after the failed run on `j1` is reprocessed successfully:
the redelivered message completes the job, but `update_job_status` never
removes attributes, so the stale error message survives. -/
def rerunStoreJ1 : JobStore :=
  (process_job envAllOk failedStoreJ1 2 "j1" "uploads/j1/cat.png").store

/-- C3 counterexample: after a failed attempt followed by a successful
reprocessing of the same job, the record is `completed` while the error
message from the failed attempt is still present, refuting
"error is present iff status is failed" under sequences of updates. -/
theorem C3_counterexample :
    jobField Job.status rerunStoreJ1 "j1" = some "completed" ∧
    jobField Job.error_message rerunStoreJ1 "j1" =
      some "ThrottlingException: rate exceeded" := by
  refine ⟨by decide, by decide⟩

/-- C3 amended: the biconditional holds for a single worker run starting
from a freshly created record (all error and result attributes absent):
the run ends `failed` with an error message and no result attributes, or
`completed` with result attributes and no error message. Because updates
never delete attributes, the biconditional can be violated by later
redelivered runs. -/
theorem C3_amended (env : WorkerEnv) (store : JobStore) (now t0 : Nat)
    (id key key0 : String)
    (hfresh : store id = some (newJobItem key0 t0)) :
    (jobField Job.status (process_job env store now id key).store id = some "failed" ∧
     (jobField Job.error_message (process_job env store now id key).store id).isSome = true ∧
     jobField Job.identity_package (process_job env store now id key).store id = none ∧
     jobField Job.s3_avatar_key (process_job env store now id key).store id = none) ∨
    (jobField Job.status (process_job env store now id key).store id = some "completed" ∧
     jobField Job.error_message (process_job env store now id key).store id = none ∧
     (jobField Job.identity_package (process_job env store now id key).store id).isSome = true ∧
     (jobField Job.s3_avatar_key (process_job env store now id key).store id).isSome = true) := by
  cases hd : env.download key with
  | error e =>
    left
    refine ⟨?_, ?_, ?_, ?_⟩ <;>
      simp [process_job, hd, applyStatusUpdate, update_job_status, applyUpdateItem,
            JobStore.put, jobField, hfresh, newJobItem, errString_truthy,
            optStrTruthy_none, ResultsDict.truthy]
  | ok img =>
    cases hr : (invoke_agent env).outcome with
    | error e =>
      left
      refine ⟨?_, ?_, ?_, ?_⟩ <;>
        simp [process_job, hd, hr, applyStatusUpdate, update_job_status, applyUpdateItem,
              JobStore.put, jobField, hfresh, newJobItem, errString_truthy,
              optStrTruthy_none, ResultsDict.truthy]
    | ok ar =>
      cases hav : optStrTruthy ar.avatar_image_base64 with
      | false =>
        right
        refine ⟨?_, ?_, ?_, ?_⟩ <;>
          simp [process_job, hd, hr, hav, applyStatusUpdate, update_job_status,
                applyUpdateItem, JobStore.put, jobField, hfresh, newJobItem,
                errString_truthy, optStrTruthy_none, ResultsDict.truthy]
      | true =>
        cases hu : env.upload ("generated/" ++ id ++ "/avatar.png") with
        | error e =>
          left
          refine ⟨?_, ?_, ?_, ?_⟩ <;>
            simp [process_job, hd, hr, hav, hu, applyStatusUpdate, update_job_status,
                  applyUpdateItem, JobStore.put, jobField, hfresh, newJobItem,
                  errString_truthy, optStrTruthy_none, ResultsDict.truthy]
        | ok u =>
          right
          refine ⟨?_, ?_, ?_, ?_⟩ <;>
            simp [process_job, hd, hr, hav, hu, applyStatusUpdate, update_job_status,
                  applyUpdateItem, JobStore.put, jobField, hfresh, newJobItem,
                  errString_truthy, optStrTruthy_none, ResultsDict.truthy]

/-- Witness for C3 amended: the all-failing agent on the fresh record
ends in the failed alternative. -/
theorem C3_amended_witness :
    (jobField Job.status
        (process_job envAllFail freshStoreJ1 1 "j1" "uploads/j1/cat.png").store "j1" =
        some "failed" ∧
     (jobField Job.error_message
        (process_job envAllFail freshStoreJ1 1 "j1" "uploads/j1/cat.png").store "j1").isSome =
        true ∧
     jobField Job.identity_package
        (process_job envAllFail freshStoreJ1 1 "j1" "uploads/j1/cat.png").store "j1" = none ∧
     jobField Job.s3_avatar_key
        (process_job envAllFail freshStoreJ1 1 "j1" "uploads/j1/cat.png").store "j1" = none) ∨
    (jobField Job.status
        (process_job envAllFail freshStoreJ1 1 "j1" "uploads/j1/cat.png").store "j1" =
        some "completed" ∧
     jobField Job.error_message
        (process_job envAllFail freshStoreJ1 1 "j1" "uploads/j1/cat.png").store "j1" = none ∧
     (jobField Job.identity_package
        (process_job envAllFail freshStoreJ1 1 "j1" "uploads/j1/cat.png").store "j1").isSome =
        true ∧
     (jobField Job.s3_avatar_key
        (process_job envAllFail freshStoreJ1 1 "j1" "uploads/j1/cat.png").store "j1").isSome =
        true) :=
  C3_amended envAllFail freshStoreJ1 1 0 "j1" "uploads/j1/cat.png" "uploads/j1/cat.png"
    (by decide)

/- ------------------------------------------------------------------ -/
/- C4                                                                  -/
/- ------------------------------------------------------------------ -/

/-- C4 counterexample: after an attempt that failed at progress 80, the
redelivered message's first status update writes progress 10, a value
lower than the one currently stored, refuting "no status update ever
writes a progress value lower than the one currently stored". -/
theorem C4_counterexample :
    jobField Job.progress failed80StoreJ1 "j1" = some 80 ∧
    (process_job envAllOk failed80StoreJ1 2 "j1" "uploads/j1/cat.png").updates.head? =
      some ⟨"processing", some 10, none, none⟩ ∧
    jobField Job.progress
      (applyStatusUpdate failed80StoreJ1 2 "j1" ⟨"processing", some 10, none, none⟩) "j1" =
      some 10 := by
  refine ⟨by decide, by decide, by decide⟩

/-- C4 amended: progress is monotone only within a single worker run:
the progress values written by one `process_job` run form a strictly
increasing positive sequence (so a run starting from a fresh record with
progress 0 never lowers the stored value); a redelivered message,
however, restarts at 10, which may be below the stored progress of an
earlier attempt. -/
theorem C4_amended (env : WorkerEnv) (store : JobStore) (now : Nat) (id key : String) :
    List.Chain' (· < ·)
      ((process_job env store now id key).updates.filterMap StatusUpdate.progress) ∧
    ∀ p ∈ (process_job env store now id key).updates.filterMap StatusUpdate.progress,
      0 < p := by
  cases hd : env.download key with
  | error e =>
    constructor <;> simp [process_job, hd, List.filterMap]
  | ok img =>
    cases hr : (invoke_agent env).outcome with
    | error e =>
      constructor <;> simp [process_job, hd, hr, List.filterMap]
    | ok ar =>
      cases hav : optStrTruthy ar.avatar_image_base64 with
      | false =>
        constructor <;> simp [process_job, hd, hr, hav, List.filterMap]
      | true =>
        cases hu : env.upload ("generated/" ++ id ++ "/avatar.png") with
        | error e =>
          constructor <;> simp [process_job, hd, hr, hav, hu, List.filterMap]
        | ok u =>
          constructor <;> simp [process_job, hd, hr, hav, hu, List.filterMap]

/- ------------------------------------------------------------------ -/
/- C5                                                                  -/
/- ------------------------------------------------------------------ -/

/-- C5 counterexample: the error message stored for the failed job `j1`
is exactly the exception's type name followed by the raw exception text,
and the status query returns that string verbatim, refuting "never
contains raw internal exception text". -/
theorem C5_counterexample :
    jobField Job.error_message failedStoreJ1 "j1" =
      some "ThrottlingException: rate exceeded" ∧
    (status_handler ⟨⟨none, .ok none⟩, true⟩ (some "k") (some "j1")
        failedStoreJ1).response.errorField =
      some "ThrottlingException: rate exceeded" ∧
    "ThrottlingException: rate exceeded" =
      "ThrottlingException" ++ ": " ++ "rate exceeded" := by
  refine ⟨by decide, by decide, by decide⟩

/-- C5 amended: the error message written for a failed job is
`f"{type(e).__name__}: {str(e)}"` — the exception type name followed by
the raw exception text — and the status query returns exactly that
string to the client; no sanitization happens. -/
theorem C5_amended (env : WorkerEnv) (senv : SecretsEnv) (apiKey : Option String)
    (store : JobStore) (now : Nat) (id key : String) (e : ExnInfo)
    (hd : env.download key = .error e)
    (hk : validate_api_key senv apiKey = true) (hid : id ≠ "") :
    jobField Job.error_message (process_job env store now id key).store id =
      some (e.name ++ ": " ++ e.msg) ∧
    jobField Job.status (process_job env store now id key).store id = some "failed" ∧
    (status_handler ⟨senv, true⟩ apiKey (some id)
        (process_job env store now id key).store).response.errorField =
      some (e.name ++ ": " ++ e.msg) := by
  have hie : id.isEmpty = false := by
    rw [Bool.eq_false_iff]
    intro ht
    exact hid ((String.isEmpty_iff _).mp ht)
  have hidT : optStrTruthy (some id) = true := by simp [optStrTruthy, hie]
  have herr : jobField Job.error_message (process_job env store now id key).store id =
      some (e.name ++ ": " ++ e.msg) := by
    simp [process_job, hd, applyStatusUpdate, update_job_status, applyUpdateItem,
          JobStore.put, jobField, errString_truthy, optStrTruthy_none]
  have hst : jobField Job.status (process_job env store now id key).store id =
      some "failed" := by
    simp [process_job, hd, applyStatusUpdate, update_job_status, applyUpdateItem,
          JobStore.put, jobField, errString_truthy, optStrTruthy_none]
  refine ⟨herr, hst, ?_⟩
  unfold jobField at herr hst
  cases hitem : (process_job env store now id key).store id with
  | none => rw [hitem] at hst; exact absurd hst (by simp)
  | some item =>
    rw [hitem] at herr hst
    simp at herr hst
    simp [status_handler, hk, hidT, hitem, hst, herr]

/-- Witness for C5 amended at a concrete missing-object failure. -/
theorem C5_amended_witness :
    jobField Job.error_message
      (process_job envDownloadFail freshStoreJ1 2 "j1" "uploads/j1/cat.png").store "j1" =
      some ("NoSuchKey" ++ ": " ++ "The specified key does not exist.") ∧
    (status_handler ⟨⟨none, .ok none⟩, true⟩ (some "k") (some "j1")
        (process_job envDownloadFail freshStoreJ1 2 "j1" "uploads/j1/cat.png").store).response.errorField =
      some ("NoSuchKey" ++ ": " ++ "The specified key does not exist.") := by
  have H := C5_amended envDownloadFail ⟨none, .ok none⟩ (some "k") freshStoreJ1 2 "j1"
    "uploads/j1/cat.png" ⟨"NoSuchKey", "The specified key does not exist."⟩
    rfl (by decide) (by decide)
  exact ⟨H.1, H.2.2⟩

end PetAvatar
